import Mathlib

/-
  Verification development for the EffectiveMobileTZ authorization core.

  Shallow embedding of the RBAC/ownership permission engine and the
  session/token lifecycle found in core/api (models.py, permissions.py,
  authentication.py, middleware.py, serializers.py, views/auth.py,
  views/mock_views.py).  Django querysets over the durable store are
  modelled as explicit lists of rows; machine-level concerns (JWT byte
  encoding, signatures) are abstracted into an Option-valued decode:
  a Token is either a validly signed payload (some p) or a token that
  fails signature/format validation (none).
-/

namespace AuthCore

/-- Outcome of the permission engine, corresponding to the source
    `HasPermission.has_permission`: `False` return = Denied,
    `True` with `request.must_filter_by_owner` unset = GrantedGlobal,
    `True` with `request.must_filter_by_owner = True` = GrantedOwnOnly. -/
inductive Decision where
  | Denied
  | GrantedGlobal
  | GrantedOwnOnly
deriving DecidableEq, Repr

/-- Row of the access-rule table `AccessRoleRule` (models.py:521-705).
    `role` is the role foreign-key id, `element` the BusinessElement name
    (queries join on `element__name`).  The nine permission booleans are
    the columns of the source in declaration order. -/
structure AccessRoleRule where
  role : Nat
  element : String
  read_all_permission : Bool
  create_permission : Bool
  update_all_permission : Bool
  delete_all_permission : Bool
  read_own_permission : Bool
  update_own_permission : Bool
  delete_own_permission : Bool
  can_export : Bool
  can_import : Bool
deriving DecidableEq, Repr

/-- Embeds `AccessRoleRule.has_global_permission` (models.py:645-663):
    dict lookup with default False. -/
def AccessRoleRule.has_global_permission (rule : AccessRoleRule) (action : String) : Bool :=
  match action with
  | "read" => rule.read_all_permission
  | "create" => rule.create_permission
  | "update" => rule.update_all_permission
  | "delete" => rule.delete_all_permission
  | "export" => rule.can_export
  | "import" => rule.can_import
  | _ => false

/-- Embeds `AccessRoleRule.has_own_permission` (models.py:665-680):
    dict lookup with default False (no own variant for create/export/import). -/
def AccessRoleRule.has_own_permission (rule : AccessRoleRule) (action : String) : Bool :=
  match action with
  | "read" => rule.read_own_permission
  | "update" => rule.update_own_permission
  | "delete" => rule.delete_own_permission
  | _ => false

/-- The queryset `AccessRoleRule.objects.get(role=..., element__name=...)`
    (permissions.py:47-50).  The table has unique_together (role, element),
    so the first match is the only match on well-formed tables. -/
def findRule (rules : List AccessRoleRule) (role : Nat) (resource : String) :
    Option AccessRoleRule :=
  rules.find? (fun r => r.role == role && r.element == resource)

/-- Embeds `HasPermission._get_action_from_method` (permissions.py:66-75):
    `method_map.get` with default read. -/
def get_action_from_method (method : String) : String :=
  match method with
  | "GET" => "read"
  | "POST" => "create"
  | "PUT" => "update"
  | "PATCH" => "update"
  | "DELETE" => "delete"
  | _ => "read"

/-- The role loop of `HasPermission.has_permission` (permissions.py:45-64):
    iterate the roles of the principal in queryset order; for each, look up the
    (role, resource) rule (a missing rule is skipped via DoesNotExist);
    a global grant returns immediately, else an own grant returns with the
    must-filter flag, else fall through to the next role; exhausting the
    loop returns False (= Denied). -/
def decideRoles (rules : List AccessRoleRule) (roles : List Nat)
    (resource action : String) : Decision :=
  match roles with
  | [] => Decision.Denied
  | role :: rest =>
    match findRule rules role resource with
    | none => decideRoles rules rest resource action
    | some rule =>
      if rule.has_global_permission action then Decision.GrantedGlobal
      else if rule.has_own_permission action then Decision.GrantedOwnOnly
      else decideRoles rules rest resource action

/-! Helper lemmas about the role loop. -/

/-- If no examined role has any grant for the action, the loop ends Denied. -/
theorem decideRoles_denied_of_no_grant (rules : List AccessRoleRule) (roles : List Nat)
    (resource action : String)
    (h : ∀ role ∈ roles, ∀ rule, findRule rules role resource = some rule →
      rule.has_global_permission action = false ∧ rule.has_own_permission action = false) :
    decideRoles rules roles resource action = Decision.Denied := by
  induction roles with
  | nil => rfl
  | cons r rest ih =>
    have hrest : ∀ role ∈ rest, ∀ rule, findRule rules role resource = some rule →
        rule.has_global_permission action = false ∧ rule.has_own_permission action = false :=
      fun role hm rule hr => h role (List.mem_cons_of_mem _ hm) rule hr
    cases hf : findRule rules r resource with
    | none =>
      simp only [decideRoles, hf]
      exact ih hrest
    | some rule =>
      have hr := h r (List.mem_cons_self _ _) rule hf
      simp only [decideRoles, hf, hr.1, hr.2, Bool.false_eq_true, if_false]
      exact ih hrest

/-- If some role has a grant (global or own) for the action, the loop
    never ends Denied: every earlier role either skips or itself returns
    a grant. -/
theorem decideRoles_ne_denied_of_grant (rules : List AccessRoleRule) (roles : List Nat)
    (resource action : String) (role : Nat) (rule : AccessRoleRule)
    (hmem : role ∈ roles) (hfind : findRule rules role resource = some rule)
    (hgrant : rule.has_global_permission action = true ∨
      rule.has_own_permission action = true) :
    decideRoles rules roles resource action ≠ Decision.Denied := by
  induction roles with
  | nil => exact absurd hmem (List.not_mem_nil _)
  | cons r rest ih =>
    rcases List.mem_cons.mp hmem with heq | hmem2
    · subst heq
      simp only [decideRoles, hfind]
      rcases hgrant with hg | ho
      · simp [hg]
      · cases hgl : rule.has_global_permission action with
        | true => simp [hgl]
        | false => simp [hgl, ho]
    · cases hf : findRule rules r resource with
      | none =>
        simp only [decideRoles, hf]
        exact ih hmem2
      | some rule2 =>
        simp only [decideRoles, hf]
        cases hg2 : rule2.has_global_permission action with
        | true => simp
        | false =>
          cases ho2 : rule2.has_own_permission action with
          | true => simp
          | false => simpa using ih hmem2

/-- An own-only outcome can only arise from some role whose rule grants
    the own permission for the action. -/
theorem decideRoles_own_exists (rules : List AccessRoleRule) (roles : List Nat)
    (resource action : String)
    (h : decideRoles rules roles resource action = Decision.GrantedOwnOnly) :
    ∃ role ∈ roles, ∃ rule, findRule rules role resource = some rule ∧
      rule.has_own_permission action = true := by
  induction roles with
  | nil => exact absurd h (by simp [decideRoles])
  | cons r rest ih =>
    cases hf : findRule rules r resource with
    | none =>
      simp only [decideRoles, hf] at h
      obtain ⟨role, hm, rule, hr, ho⟩ := ih h
      exact ⟨role, List.mem_cons_of_mem _ hm, rule, hr, ho⟩
    | some rule =>
      simp only [decideRoles, hf] at h
      cases hg : rule.has_global_permission action with
      | true => simp [hg] at h
      | false =>
        cases ho : rule.has_own_permission action with
        | true => exact ⟨r, List.mem_cons_self _ _, rule, hf, ho⟩
        | false =>
          simp only [hg, ho, Bool.false_eq_true, if_false] at h
          obtain ⟨role, hm, rule2, hr, ho2⟩ := ih h
          exact ⟨role, List.mem_cons_of_mem _ hm, rule2, hr, ho2⟩

/-! ## Session and token lifecycle -/

/-- Row of the `users` table (models.py:66-207), restricted to the columns
    the core logic reads.  The stored credential is the bcrypt hash; the
    hash function itself is kept as a parameter of the operations that
    need it. -/
structure User where
  id : Nat
  email : String
  is_active : Bool
  password_hash : String
deriving DecidableEq, Repr

/-- Row of `user_sessions` (models.py:210-308).  Timestamps are modelled
    as Nat instants; the id is the UUID rendered as a string. -/
structure UserSession where
  id : String
  user_id : Nat
  is_active : Bool
  expires_at : Nat
deriving DecidableEq, Repr

/-- Embeds `UserSession.deactivate` (models.py:305-308): sets is_active False. -/
def UserSession.deactivate (s : UserSession) : UserSession :=
  ⟨s.id, s.user_id, false, s.expires_at⟩

/-- Row of `revoked_tokens` (models.py:311-361). -/
structure RevokedToken where
  jti : String
  revoked_at : Nat
  expires_at : Nat
deriving DecidableEq, Repr

/-- Decoded JWT payload.  Claims are Options: `payload.get(key)` in the
    source returns None when the claim is absent. -/
structure Payload where
  session_id : Option String
  user_id : Option Nat
  email : Option String
  exp : Option Nat
  iat : Option Nat
  jti : Option String
deriving DecidableEq, Repr

/-- A presented token: `some p` is a token whose signature verifies and
    decodes to payload `p`; `none` is a malformed or badly signed token,
    on which `jwt.decode` raises InvalidTokenError. -/
abbrev Token : Type := Option Payload

/-- Embeds `UserSession.create_jwt_token` (models.py:280-294): the minted payload
    is exactly {session_id, user_id, email, exp=expires_at, iat=now} —
    note that no jti claim is included. -/
def create_jwt_token (s : UserSession) (u : User) (now : Nat) : Payload :=
  ⟨some s.id, some u.id, some u.email, some s.expires_at, some now, none⟩

/-- Embeds `CustomJWTAuthentication._is_token_revoked` (authentication.py:57-66):
    decode without expiry verification; on decode failure pass and return
    False; otherwise revoked iff the payload has a jti and a ledger row
    with that jti and expires_at > now exists. -/
def is_token_revoked (ledger : List RevokedToken) (now : Nat) (t : Token) : Bool :=
  match t with
  | none => false
  | some p =>
    match p.jti with
    | none => false
    | some jti => ledger.any (fun e => e.jti == jti && decide (now < e.expires_at))

/-- Embeds `CustomAuthMiddleware._is_token_revoked` (middleware.py:66-74):
    textually the same check as the authentication-class one. -/
def middleware_is_token_revoked (ledger : List RevokedToken) (now : Nat) (t : Token) : Bool :=
  match t with
  | none => false
  | some p =>
    match p.jti with
    | none => false
    | some jti => ledger.any (fun e => e.jti == jti && decide (now < e.expires_at))

/-- The blacklist insert of `logout` (views/auth.py:63-74): decode without
    expiry verification (failures pass), and when both jti and exp claims
    are present do `RevokedToken.objects.get_or_create(jti=..,
    defaults=expires_at=exp)` — a no-op when a row with that jti exists. -/
def logoutRevoke (ledger : List RevokedToken) (now : Nat) (t : Token) :
    List RevokedToken :=
  match t with
  | none => ledger
  | some p =>
    match p.jti, p.exp with
    | some jti, some exp =>
      if ledger.any (fun e => e.jti == jti) then ledger
      else ledger ++ [⟨jti, now, exp⟩]
    | _, _ => ledger

/-- The session sweep of `logout` (views/auth.py:77):
    `request.user.sessions.filter(is_active=True).update(is_active=False)` —
    deactivates every active session of the requesting principal. -/
def logout_update_sessions (sessions : List UserSession) (uid : Nat) :
    List UserSession :=
  sessions.map (fun s =>
    if s.user_id == uid && s.is_active then s.deactivate else s)

/-- The session queryset of `CustomJWTAuthentication.authenticate`
    (authentication.py:36-43): `UserSession.objects.get(id=session_id,
    is_active=True, expires_at__gt=now, user__is_active=True)`; the user
    join is modelled by requiring an active user row with that
    user id. -/
def sessionLookup (sessions : List UserSession) (users : List User) (now : Nat)
    (sid : String) : Option UserSession :=
  sessions.find? (fun s =>
    s.id == sid && s.is_active && decide (now < s.expires_at) &&
      users.any (fun u => u.id == s.user_id && u.is_active))

/-- Result of `CustomJWTAuthentication.authenticate`: None for a request
    without a Bearer header, success with the session user, or one of the
    AuthenticationFailed reasons raised in authentication.py:26-55. -/
inductive AuthResult where
  | anonymous
  | success (user_id : Nat)
  | tokenRevoked
  | tokenExpired
  | invalidToken
  | sessionNotFound
deriving DecidableEq, Repr

/-- The expiry validation performed by `jwt.decode` with default options:
    an exp claim strictly in the past raises ExpiredSignatureError; a
    token without an exp claim is not expiry-checked. -/
def payloadExpired (p : Payload) (now : Nat) : Bool :=
  match p.exp with
  | some e => decide (e < now)
  | none => false

/-- Embeds `CustomJWTAuthentication.authenticate` (authentication.py:14-55):
    no Bearer header returns None; then the revocation check, the signed
    decode (malformed, then expired), the session_id claim check, and the
    active-session lookup, each failure mapped to its error. -/
def authenticate (sessions : List UserSession) (users : List User)
    (ledger : List RevokedToken) (now : Nat) (header : Option Token) : AuthResult :=
  match header with
  | none => AuthResult.anonymous
  | some t =>
    if is_token_revoked ledger now t then AuthResult.tokenRevoked
    else
      match t with
      | none => AuthResult.invalidToken
      | some p =>
        if payloadExpired p now then AuthResult.tokenExpired
        else
          match p.session_id with
          | none => AuthResult.invalidToken
          | some sid =>
            match sessionLookup sessions users now sid with
            | none => AuthResult.sessionNotFound
            | some s => AuthResult.success s.user_id

/-! ## Login credential validation -/

/-- Embeds the Django `user.check_password(raw)` comparison against the stored hash: the
    hashing scheme is a parameter, the comparison is equality of hashes. -/
def check_password (hashFn : String → String) (u : User) (raw : String) : Bool :=
  hashFn raw == u.password_hash

/-- The two error messages raised by `UserLoginSerializer.validate`
    (serializers.py:34-50). -/
def invalidCredentialsMsg : String := "Неверный email или пароль"

/-- The distinct message raised for an inactive account
    (serializers.py:44). -/
def accountDeactivatedMsg : String := "Аккаунт деактивирован"

/-- Embeds `UserLoginSerializer.validate` (serializers.py:34-50): look up the
    user by email (absence raises the generic message), then reject an
    inactive account with its own message, then reject a non-matching
    password with the generic message, else succeed with the user. -/
def UserLoginSerializer_validate (hashFn : String → String) (users : List User)
    (email password : String) : Except String User :=
  match users.find? (fun u => u.email == email) with
  | none => Except.error invalidCredentialsMsg
  | some u =>
    if !u.is_active then Except.error accountDeactivatedMsg
    else if !(check_password hashFn u password) then Except.error invalidCredentialsMsg
    else Except.ok u

/-! ## The mock products endpoint pipeline -/

/-- HTTP outcome classes of the DRF permission pipeline on
    `MockProductView` (mock_views.py:8-39): AuthenticationFailed from
    `CustomIsAuthenticated` surfaces as 401; a False from `HasPermission`
    as 403; otherwise the handler runs, with `must_filter_by_owner`
    recorded when only an own grant matched. -/
inductive PipelineResult where
  | unauthorized401
  | forbidden403
  | allowed (must_filter_by_owner : Bool)
deriving DecidableEq, Repr

/-- The permission pipeline of `MockProductView`
    (permission_classes = [CustomIsAuthenticated, HasPermission],
    resource_name products).  DRF checks the classes in order:
    `CustomIsAuthenticated` (permissions.py:7-18) raises 401 for an
    unauthenticated request, so `HasPermission` — and hence any
    AccessRoleRule lookup — runs only for a resolved principal, whose
    role ids are `roles`. -/
def mock_product_view_check (rules : List AccessRoleRule)
    (user : Option (List Nat)) (method : String) : PipelineResult :=
  match user with
  | none => PipelineResult.unauthorized401
  | some roles =>
    match decideRoles rules roles "products" (get_action_from_method method) with
    | Decision.Denied => PipelineResult.forbidden403
    | Decision.GrantedGlobal => PipelineResult.allowed false
    | Decision.GrantedOwnOnly => PipelineResult.allowed true

/-! ## Concrete rule-table rows used in counterexamples and witnesses -/

/-- A rule on products granting only the own read permission. -/
def ruleOwnRead : AccessRoleRule :=
  ⟨1, "products", false, false, false, false, true, false, false, false, false⟩

/-- A rule on products (for a different role) granting the global read
    permission and nothing own. -/
def ruleGlobalRead : AccessRoleRule :=
  ⟨2, "products", true, false, false, false, false, false, false, false, false⟩

/-! ## Claims -/

/-- Claim C1, counterexample: with role 1 holding only the own read
    permission on products and role 2 holding the global read permission,
    the decision is GrantedOwnOnly when role 1 is examined first but
    GrantedGlobal when role 2 is examined first — the result depends on
    the iteration order, and the principal holding both is narrowed. -/
theorem c1_counterexample :
    decideRoles [ruleOwnRead, ruleGlobalRead] [1, 2] "products" "read" =
        Decision.GrantedOwnOnly ∧
      decideRoles [ruleOwnRead, ruleGlobalRead] [2, 1] "products" "read" =
        Decision.GrantedGlobal := by
  exact ⟨rfl, rfl⟩

/-- Claim C1, amended: when some role of the principal has a rule granting
    the global permission for the action and no role has a rule granting
    the own permission for it, the decision is GrantedGlobal, independent
    of the iteration order.  (When another role grants the own permission,
    the first matching role wins and the result is order-dependent.) -/
theorem c1_global_dominates_without_own (rules : List AccessRoleRule)
    (roles : List Nat) (resource action : String)
    (hglobal : ∃ role ∈ roles, ∃ rule, findRule rules role resource = some rule ∧
      rule.has_global_permission action = true)
    (hnoown : ∀ role ∈ roles, ∀ rule, findRule rules role resource = some rule →
      rule.has_own_permission action = false) :
    decideRoles rules roles resource action = Decision.GrantedGlobal := by
  obtain ⟨role, hm, rule, hf, hg⟩ := hglobal
  have hnd := decideRoles_ne_denied_of_grant rules roles resource action role rule hm hf
    (Or.inl hg)
  cases hres : decideRoles rules roles resource action with
  | Denied => exact absurd hres hnd
  | GrantedGlobal => rfl
  | GrantedOwnOnly =>
    obtain ⟨role2, hm2, rule2, hf2, ho2⟩ :=
      decideRoles_own_exists rules roles resource action hres
    rw [hnoown role2 hm2 rule2 hf2] at ho2
    exact absurd ho2 (by simp)

/-- Claim C1, witness for the amended statement at a concrete input. -/
theorem c1_witness :
    decideRoles [ruleGlobalRead] [2] "products" "read" = Decision.GrantedGlobal := by
  apply c1_global_dominates_without_own [ruleGlobalRead] [2] "products" "read"
  · exact ⟨2, by decide, ruleGlobalRead, by decide, by decide⟩
  · intro role hm rule hf
    have hrole : role = 2 := by simpa using hm
    subst hrole
    have hfr : findRule [ruleGlobalRead] 2 "products" = some ruleGlobalRead := by decide
    rw [hfr] at hf
    rw [← Option.some.inj hf]
    decide

/-- Claim C3: a principal none of whose roles has an AccessRule for the
    requested resource is Denied for every action — absence of a rule
    means no access. -/
theorem c3_no_rule_denied (rules : List AccessRoleRule) (roles : List Nat)
    (resource action : String)
    (h : ∀ role ∈ roles, findRule rules role resource = none) :
    decideRoles rules roles resource action = Decision.Denied := by
  apply decideRoles_denied_of_no_grant
  intro role hm rule hr
  rw [h role hm] at hr
  exact Option.noConfusion hr

/-- Claim C3, witness: a nonempty rule table without any rule on the
    requested resource still yields Denied. -/
theorem c3_witness :
    decideRoles [ruleGlobalRead] [1, 2] "users" "read" = Decision.Denied :=
  c3_no_rule_denied [ruleGlobalRead] [1, 2] "users" "read" (by decide)

/-- A token whose revocation pre-check is negative is never rejected as
    revoked: every other branch of authenticate yields a different
    result constructor. -/
theorem authenticate_ne_revoked_of_not_revoked (sessions : List UserSession)
    (users : List User) (ledger : List RevokedToken) (now : Nat) (t : Token)
    (h : is_token_revoked ledger now t = false) :
    authenticate sessions users ledger now (some t) ≠ AuthResult.tokenRevoked := by
  cases t with
  | none => simp [authenticate, h]
  | some p =>
    simp only [authenticate, h, Bool.false_eq_true, if_false]
    cases hpe : payloadExpired p now with
    | true => simp [hpe]
    | false =>
      simp only [hpe, Bool.false_eq_true, if_false]
      cases hsid : p.session_id with
      | none => simp
      | some sid =>
        cases hL : sessionLookup sessions users now sid with
        | none => simp [hL]
        | some s2 => simp [hL]

/-- Claim C2: the payload minted by create_jwt_token carries no jti claim
    at all, so revoking such a token inserts nothing into the ledger, the
    revocation check never fires on it, and authenticate never answers
    tokenRevoked for it — contradicting the claimed fresh random jti and
    the TokenRevoked rejection after logout. -/
theorem c2_minted_token_has_no_jti (s : UserSession) (u : User)
    (now t1 t2 : Nat) (ledger : List RevokedToken)
    (sessions : List UserSession) (users : List User) :
    (create_jwt_token s u now).jti = none ∧
      logoutRevoke ledger t1 (some (create_jwt_token s u now)) = ledger ∧
      is_token_revoked ledger t1 (some (create_jwt_token s u now)) = false ∧
      authenticate sessions users ledger t2 (some (some (create_jwt_token s u now))) ≠
        AuthResult.tokenRevoked := by
  refine ⟨rfl, rfl, rfl, ?_⟩
  exact authenticate_ne_revoked_of_not_revoked sessions users ledger t2
    (some (create_jwt_token s u now)) rfl

/-- Claim C4, counterexample: validating against an existing but inactive
    account yields the dedicated deactivation message, distinguishable
    from the generic invalid-credentials message raised for an absent
    email — the three failure cases are not observationally identical. -/
theorem c4_counterexample :
    UserLoginSerializer_validate (fun s => s) [⟨1, "a@b.c", false, "pw"⟩]
        "a@b.c" "pw" = Except.error accountDeactivatedMsg ∧
      UserLoginSerializer_validate (fun s => s) [] "a@b.c" "pw" =
        Except.error invalidCredentialsMsg ∧
      accountDeactivatedMsg ≠ invalidCredentialsMsg := by
  refine ⟨rfl, rfl, ?_⟩
  decide

/-- Claim C4, amended: an absent email and a non-matching password both
    fail with the identical generic invalid-credentials error, but an
    inactive principal fails with the distinct account-deactivated error,
    revealing that the account exists and is deactivated. -/
theorem c4_login_failure_messages (hashFn : String → String) (users : List User)
    (email password : String) :
    (users.find? (fun u => u.email == email) = none →
      UserLoginSerializer_validate hashFn users email password =
        Except.error invalidCredentialsMsg) ∧
      (∀ u, users.find? (fun u => u.email == email) = some u →
        u.is_active = true → check_password hashFn u password = false →
        UserLoginSerializer_validate hashFn users email password =
          Except.error invalidCredentialsMsg) ∧
      (∀ u, users.find? (fun u => u.email == email) = some u →
        u.is_active = false →
        UserLoginSerializer_validate hashFn users email password =
          Except.error accountDeactivatedMsg) := by
  refine ⟨?_, ?_, ?_⟩
  · intro h
    simp [UserLoginSerializer_validate, h]
  · intro u hf ha hc
    simp [UserLoginSerializer_validate, hf, ha, hc]
  · intro u hf ha
    simp [UserLoginSerializer_validate, hf, ha]

/-- Claim C4, witness for the amended statement: a wrong password against
    an active account yields the generic message. -/
theorem c4_witness :
    UserLoginSerializer_validate (fun s => s) [⟨1, "a@b.c", true, "pw"⟩]
      "a@b.c" "zz" = Except.error invalidCredentialsMsg :=
  (c4_login_failure_messages (fun s => s) [⟨1, "a@b.c", true, "pw"⟩]
      "a@b.c" "zz").2.1
    ⟨1, "a@b.c", true, "pw"⟩ (by decide) rfl (by decide)

/-- Claim C5: a session whose expires_at equals the current instant is
    already unusable — the session lookup of token resolution, which
    filters with expires_at strictly greater than now, does not find it. -/
theorem c5_expiry_boundary_unusable (sessions : List UserSession)
    (users : List User) (now : Nat) (sid : String)
    (h : ∀ s ∈ sessions, s.id = sid → s.expires_at = now) :
    sessionLookup sessions users now sid = none := by
  apply List.find?_eq_none.mpr
  intro s hs
  by_cases hid : s.id = sid
  · have hexp : s.expires_at = now := h s hs hid
    simp [hexp]
  · simp [hid]

/-- Claim C5, witness: an active session of an active user, at exactly its
    expiry instant, is not found. -/
theorem c5_witness :
    sessionLookup [⟨"s1", 1, true, 77⟩] [⟨1, "a@b.c", true, "pw"⟩] 77 "s1" =
      none :=
  c5_expiry_boundary_unusable [⟨"s1", 1, true, 77⟩] [⟨1, "a@b.c", true, "pw"⟩]
    77 "s1" (by decide)

/-- Claim C6: for a token whose payload carries jti and exp claims and a
    ledger not yet holding that jti, revoking twice is idempotent (the
    second revoke changes nothing), exactly one ledger entry for the jti
    exists, and the revocation check answers true after either revoke at
    any instant before exp. -/
theorem c6_revocation_idempotent (ledger : List RevokedToken) (n1 n2 t : Nat)
    (p : Payload) (jti : String) (exp : Nat)
    (hj : p.jti = some jti) (he : p.exp = some exp)
    (hfresh : ledger.any (fun e => e.jti == jti) = false) (ht : t < exp) :
    logoutRevoke (logoutRevoke ledger n1 (some p)) n2 (some p) =
        logoutRevoke ledger n1 (some p) ∧
      ((logoutRevoke ledger n1 (some p)).filter (fun e => e.jti == jti)).length
        = 1 ∧
      is_token_revoked (logoutRevoke ledger n1 (some p)) t (some p) = true ∧
      is_token_revoked
        (logoutRevoke (logoutRevoke ledger n1 (some p)) n2 (some p)) t (some p)
        = true := by
  have h1 : logoutRevoke ledger n1 (some p) = ledger ++ [⟨jti, n1, exp⟩] := by
    simp only [logoutRevoke]
    rw [hj, he]
    simp [hfresh]
  have hmem : (ledger ++ [(⟨jti, n1, exp⟩ : RevokedToken)]).any
      (fun e => e.jti == jti) = true := by
    simp [List.any_append]
  have h2 : logoutRevoke (logoutRevoke ledger n1 (some p)) n2 (some p) =
      logoutRevoke ledger n1 (some p) := by
    conv_lhs => rw [h1]
    simp only [logoutRevoke]
    rw [hj, he]
    simp only [hmem, if_true]
    simp [hfresh]
  have hnone : ∀ e ∈ ledger, ¬(e.jti == jti) = true := by
    intro e hmem2 hc
    rw [List.any_eq_false] at hfresh
    exact hfresh e hmem2 hc
  have h3 : ledger.filter (fun e => e.jti == jti) = [] :=
    List.filter_eq_nil_iff.mpr hnone
  have h4 : is_token_revoked (logoutRevoke ledger n1 (some p)) t (some p)
      = true := by
    rw [h1]
    simp only [is_token_revoked]
    rw [hj]
    simp [List.any_append, ht]
  refine ⟨h2, ?_, h4, ?_⟩
  · rw [h1, List.filter_append, h3]
    simp
  · rw [h2]
    exact h4

/-- Claim C6, witness at a concrete fresh ledger and token. -/
theorem c6_witness :
    logoutRevoke (logoutRevoke [] 3 (some ⟨none, none, none, some 9, none, some "j1"⟩))
        4 (some ⟨none, none, none, some 9, none, some "j1"⟩) =
      logoutRevoke [] 3 (some ⟨none, none, none, some 9, none, some "j1"⟩) ∧
    ((logoutRevoke [] 3 (some ⟨none, none, none, some 9, none, some "j1"⟩)).filter
      (fun e => e.jti == "j1")).length = 1 ∧
    is_token_revoked (logoutRevoke [] 3 (some ⟨none, none, none, some 9, none, some "j1"⟩))
      5 (some ⟨none, none, none, some 9, none, some "j1"⟩) = true ∧
    is_token_revoked
      (logoutRevoke (logoutRevoke [] 3 (some ⟨none, none, none, some 9, none, some "j1"⟩))
        4 (some ⟨none, none, none, some 9, none, some "j1"⟩))
      5 (some ⟨none, none, none, some 9, none, some "j1"⟩) = true :=
  c6_revocation_idempotent [] 3 4 5 ⟨none, none, none, some 9, none, some "j1"⟩
    "j1" 9 rfl rfl rfl (by decide)

/-- Claim C7: an anonymous request to the products endpoint is rejected
    with 401 by CustomIsAuthenticated — never 403 — and the outcome does
    not depend on the access-rule table, i.e. the rule lookup of the
    permission engine is never reached. -/
theorem c7_anonymous_products_401 (rules rules2 : List AccessRoleRule)
    (method : String) :
    mock_product_view_check rules none method = PipelineResult.unauthorized401 ∧
      mock_product_view_check rules none method ≠ PipelineResult.forbidden403 ∧
      mock_product_view_check rules none method =
        mock_product_view_check rules2 none method := by
  refine ⟨rfl, ?_, rfl⟩
  intro hc
  exact PipelineResult.noConfusion hc

/-- Claim C8: a malformed token — one whose decode fails — is reported as
    not revoked by both revocation checks; the checks are total functions,
    the decode failure is swallowed, never surfaced. -/
theorem c8_malformed_not_revoked (ledger : List RevokedToken) (now : Nat) :
    is_token_revoked ledger now none = false ∧
      middleware_is_token_revoked ledger now none = false :=
  ⟨rfl, rfl⟩

/-- Claim C9: the logout sweep deactivates every active session of the
    requesting principal — afterwards the principal has no active session,
    and token resolution fails for any session id belonging to them,
    including sessions from concurrent logins. -/
theorem c9_logout_deactivates_all_sessions (sessions : List UserSession)
    (uid : Nat) :
    (logout_update_sessions sessions uid).filter
        (fun s => s.user_id == uid && s.is_active) = [] ∧
      ∀ users now sid, (∀ s ∈ sessions, s.id = sid → s.user_id = uid) →
        sessionLookup (logout_update_sessions sessions uid) users now sid =
          none := by
  constructor
  · apply List.filter_eq_nil_iff.mpr
    intro s2 hs2
    obtain ⟨s, hs, rfl⟩ := List.mem_map.mp hs2
    intro hcontra
    simp only [Bool.and_eq_true] at hcontra
    obtain ⟨hu, hb⟩ := hcontra
    by_cases hpc : (s.user_id == uid) = true ∧ s.is_active = true
    · rw [if_pos hpc] at hb
      simp [UserSession.deactivate] at hb
    · rw [if_neg hpc] at hu hb
      exact hpc ⟨hu, hb⟩
  · intro users now sid h
    apply List.find?_eq_none.mpr
    intro s2 hs2
    obtain ⟨s, hs, rfl⟩ := List.mem_map.mp hs2
    intro hcontra
    simp only [Bool.and_eq_true] at hcontra
    obtain ⟨⟨⟨ha, hb⟩, hc⟩, hd⟩ := hcontra
    by_cases hpc : (s.user_id == uid) = true ∧ s.is_active = true
    · rw [if_pos hpc] at hb
      simp [UserSession.deactivate] at hb
    · rw [if_neg hpc] at ha hb
      have hid : s.id = sid := by simpa using ha
      have huid : s.user_id = uid := h s hs hid
      exact hpc ⟨by simp [huid], hb⟩

/-- Claim C9, witness: a second concurrent session of the same principal
    stops resolving after logout. -/
theorem c9_witness :
    sessionLookup
      (logout_update_sessions [⟨"s1", 1, true, 99⟩, ⟨"s2", 1, true, 99⟩] 1)
      [⟨1, "a@b.c", true, "pw"⟩] 5 "s2" = none :=
  (c9_logout_deactivates_all_sessions
      [⟨"s1", 1, true, 99⟩, ⟨"s2", 1, true, 99⟩] 1).2
    [⟨1, "a@b.c", true, "pw"⟩] 5 "s2" (by decide)

/-- Claim C10: any HTTP method outside GET/POST/PUT/PATCH/DELETE is mapped
    to the read action, so a principal with some role granting a read
    permission (global or own) on the resource is not denied such a
    request, while a principal none of whose rules has a read permission
    on the resource is denied it. -/
theorem c10_unknown_method_reads (method : String)
    (h1 : method ≠ "GET") (h2 : method ≠ "POST") (h3 : method ≠ "PUT")
    (h4 : method ≠ "PATCH") (h5 : method ≠ "DELETE") :
    get_action_from_method method = "read" ∧
      (∀ rules roles resource (role : Nat) rule, role ∈ roles →
        findRule rules role resource = some rule →
        (rule.read_all_permission = true ∨ rule.read_own_permission = true) →
        decideRoles rules roles resource (get_action_from_method method) ≠
          Decision.Denied) ∧
      (∀ rules roles resource,
        (∀ role ∈ roles, ∀ rule, findRule rules role resource = some rule →
          rule.read_all_permission = false ∧ rule.read_own_permission = false) →
        decideRoles rules roles resource (get_action_from_method method) =
          Decision.Denied) := by
  have hread : get_action_from_method method = "read" := by
    unfold get_action_from_method
    split <;> simp_all
  refine ⟨hread, ?_, ?_⟩
  · intro rules roles resource role rule hm hf hg
    rw [hread]
    exact decideRoles_ne_denied_of_grant rules roles resource "read" role rule
      hm hf hg
  · intro rules roles resource h
    rw [hread]
    exact decideRoles_denied_of_no_grant rules roles resource "read" h

/-- Claim C10, witness at method HEAD: granted for an own-read-only role,
    denied when no rule exists on the resource. -/
theorem c10_witness :
    get_action_from_method "HEAD" = "read" ∧
      decideRoles [ruleOwnRead] [1] "products" (get_action_from_method "HEAD") ≠
        Decision.Denied ∧
      decideRoles [] [1] "products" (get_action_from_method "HEAD") =
        Decision.Denied := by
  have h := c10_unknown_method_reads "HEAD" (by decide) (by decide) (by decide)
    (by decide) (by decide)
  refine ⟨h.1, ?_, ?_⟩
  · exact h.2.1 [ruleOwnRead] [1] "products" 1 ruleOwnRead (by decide)
      (by decide) (Or.inr (by decide))
  · exact h.2.2 [] [1] "products"
      (fun role hm rule hr => Option.noConfusion hr)

end AuthCore
